import Mathlib

/-!
Verification of the `mern-cmd` CLI (src/index.js).

A shallow embedding of the scaffolding tool in `src/index.js`.  Paths are
lists of path components (`path.join` is list append), the filesystem is a
finite association list of file paths to contents together with a list of
existing directories, and every commander action is a pure function from a
name and a filesystem to a resulting filesystem plus the list of console
messages it prints.  A `Option (FS × String)` parameter on each action
injects a filesystem exception thrown inside the `try` block (carrying the
filesystem state at the throw point), which the `catch` handler receives.
-/

/-- A filesystem path, as the list of its components.  `path.join(a, b)`
is modelled as list append. -/
abbrev JPath := List String

/-- The filesystem: an association list from file paths to file contents,
plus the list of directories that exist. -/
structure FS where
  files : List (JPath × String)
  dirs : List JPath
deriving Repr, DecidableEq

/-- Models `fs.existsSync(p)`: true iff a file or a directory exists at `p`. -/
def FS.existsPath (fs : FS) (p : JPath) : Bool :=
  fs.files.any (fun e => e.1 == p) || fs.dirs.any (fun d => d == p)

/-- All non-empty prefixes of a path, shortest first; the last one is the
path itself (for non-empty paths). -/
def pathPrefixes (p : JPath) : List JPath :=
  (List.range p.length).map (fun i => p.take (i + 1))

/-- Models `fs.mkdirSync(p, recursive)`: create the directory and every
intermediate directory that is absent. -/
def FS.mkdirRecursive (fs : FS) (p : JPath) : FS :=
  { fs with dirs := fs.dirs ++ (pathPrefixes p).filter (fun q => !(fs.dirs.any (fun d => d == q))) }

/-- Models `fs.writeFileSync(p, c)`: overwrite the file if present, else append it. -/
def FS.writeFile (fs : FS) (p : JPath) (c : String) : FS :=
  if fs.files.any (fun e => e.1 == p) then
    { fs with files := fs.files.map (fun e => if e.1 == p then (p, c) else e) }
  else
    { fs with files := fs.files ++ [(p, c)] }

/-- Read the content of a file, `none` if absent. -/
def FS.readFile (fs : FS) (p : JPath) : Option String :=
  (fs.files.find? (fun e => e.1 == p)).map (fun e => e.2)

/-- JavaScript whitespace, as far as the ASCII templates use it. -/
def isJsWhitespace (c : Char) : Bool :=
  c == ' ' || c == '\t' || c == '\n' || c == '\r'

/-- Models `String.prototype.trim()`: strip leading and trailing whitespace. -/
def jsTrim (s : String) : String :=
  ⟨((s.data.dropWhile isJsWhitespace).reverse.dropWhile isJsWhitespace).reverse⟩

/-- A console message: `console.log` of a chalk-colored string, or
`console.error` of a chalk-red label together with the caught error. -/
inductive Msg where
  | logBlue : String → Msg
  | logGreen : String → Msg
  | logRed : String → Msg
  | errorRed : String → String → Msg
deriving Repr, DecidableEq

/-- The observable outcome of one action: the resulting filesystem, the
console messages in order, and the argument of a `process.exit` call if
one was made (`none`: the action never calls `process.exit`). -/
structure ActionResult where
  fs : FS
  msgs : List Msg
  exitCall : Option Nat
deriving Repr, DecidableEq

/-- A bundled template directory, as the list of its files: relative path
and content. -/
abbrev Tpl := List (JPath × String)

/-- Models `fs.copySync(templateDir, destinationDir)`: create the destination
directory and copy every template file (creating its parent directories)
verbatim. -/
def copyTpl (fs : FS) (dest : JPath) (t : Tpl) : FS :=
  t.foldl (fun f e => (f.mkdirRecursive (dest ++ e.1.dropLast)).writeFile (dest ++ e.1) e.2)
    (fs.mkdirRecursive dest)

/-- The single file of the bundled `templates/express` directory
(`templates/express/index.js`). -/
def expressTemplateIndexJs : String :=
  "const express = require(\x27express\x27);\nconst app = express();\nconst PORT = process.env.PORT || 3000;\n\n// Middleware\napp.use(express.json());\n\n// Routes\napp.use(\x27/\x27, require(\x27./routes\x27));\n\n// Start the server\napp.listen(PORT, () => \x7b\n  console.log(\x60Server running on http://localhost:$\x7bPORT\x7d\x60);\n\x7d);"

/-- The bundled Express template tree, as shipped in the repository. -/
def bundledExpressTemplate : Option Tpl :=
  some [(["index.js"], expressTemplateIndexJs)]

/-- The bundled React template tree: `templates/react` does not exist in
the repository. -/
def bundledReactTemplate : Option Tpl := none

/-- The `componentTemplate` string of the `react-component` action, before
`.trim()`: the text between the leading and trailing newline. -/
def componentBody (componentName : String) : String :=
  "import React from \x27react\x27;\n\nconst " ++ componentName ++
  " = () => \x7b\n  return (\n    <div>\n      <h1>" ++ componentName ++
  "</h1>\n    </div>\n  );\n\x7d;\nexport default " ++ componentName ++ ";"

/-- The raw `componentTemplate` template literal (leading and trailing
newline included). -/
def componentTemplate (componentName : String) : String :=
  "\n" ++ componentBody componentName ++ "\n"

/-- The `modelTemplate` string of the `express-model` action, before
`.trim()`. -/
def modelBody (modelName : String) : String :=
  "import mongoose from \x27mongoose\x27;\n\nconst " ++ modelName ++
  "Schema = new mongoose.Schema(\x7b\n  // Define your schema here\n  name: \x7b type: String, required: true \x7d,\n  createdAt: \x7b type: Date, default: Date.now \x7d,\n\x7d);\n\nconst " ++
  modelName ++ " = mongoose.model(\x27" ++ modelName ++ "\x27, " ++ modelName ++
  "Schema);\n\nexport default " ++ modelName ++ ";"

/-- The raw `modelTemplate` template literal. -/
def modelTemplate (modelName : String) : String :=
  "\n" ++ modelBody modelName ++ "\n"

/-- The `controllerTemplate` string of the `express-controller` action: a
constant, no interpolation point. -/
def controllerTemplate : String := "//Your Code here"

/-- The `routeTemplate` string of the `express-route` action, before
`.trim()`. -/
def routeBody (routeName : String) : String :=
  "import express from \x27express\x27;\nimport \x7b getAll" ++ routeName ++
  "s, create" ++ routeName ++ " \x7d from \x27../controllers/" ++ routeName ++
  ".js\x27;\n\nconst router = express.Router();\n\nrouter.get(\x27/\x27, getAll" ++
  routeName ++ "s);\nrouter.post(\x27/\x27, create" ++ routeName ++
  ");\n\nexport default router;"

/-- The raw `routeTemplate` template literal. -/
def routeTemplate (routeName : String) : String :=
  "\n" ++ routeBody routeName ++ "\n"

/-- The `middlewareTemplate` string of the `express-middleware` action,
before `.trim()`. -/
def middlewareBody (fileName : String) : String :=
  "// Middleware boilerplate for " ++ fileName ++ "\n\nconst " ++ fileName ++
  " = (req, res, next) => \x7b\n  // Your middleware logic here\n  console.log(\x27" ++
  fileName ++ " middleware triggered\x27);\n  next();\n\x7d;\n\nexport default " ++
  fileName ++ ";"

/-- The raw `middlewareTemplate` template literal. -/
def middlewareTemplate (fileName : String) : String :=
  "\n" ++ middlewareBody fileName ++ "\n"

/-- The `express <projectName>` action.  `template` is the bundled
`templates/express` tree (`none` when the directory is missing, in which
case `fs.copySync` throws ENOENT before creating anything).  `inj`
injects any other exception thrown inside the `try` block, carrying the
filesystem state at the throw point. -/
def expressAction (cwd : JPath) (projectName : String) (template : Option Tpl)
    (fs : FS) (inj : Option (FS × String)) : ActionResult :=
  let destinationDir := cwd ++ [projectName]
  let blue := Msg.logBlue ("Creating Express project: " ++ projectName)
  match inj with
  | some (f, e) =>
    { fs := f, msgs := [blue, Msg.errorRed "Error copying template files:" e], exitCall := none }
  | none =>
    match template with
    | none =>
      { fs := fs, msgs := [blue, Msg.errorRed "Error copying template files:" "ENOENT"],
        exitCall := none }
    | some t =>
      { fs := copyTpl fs destinationDir t,
        msgs := [blue, Msg.logGreen "Express project created successfully!"], exitCall := none }

/-- The `react <projectName>` action: identical to `expressAction` except
for the template tree and the message texts. -/
def reactAction (cwd : JPath) (projectName : String) (template : Option Tpl)
    (fs : FS) (inj : Option (FS × String)) : ActionResult :=
  let destinationDir := cwd ++ [projectName]
  let blue := Msg.logBlue ("Creating React project: " ++ projectName)
  match inj with
  | some (f, e) =>
    { fs := f, msgs := [blue, Msg.errorRed "Error copying template files:" e], exitCall := none }
  | none =>
    match template with
    | none =>
      { fs := fs, msgs := [blue, Msg.errorRed "Error copying template files:" "ENOENT"],
        exitCall := none }
    | some t =>
      { fs := copyTpl fs destinationDir t,
        msgs := [blue, Msg.logGreen "React project created successfully!"], exitCall := none }

/-- The `react-component <componentName>` action.  Note: unlike the four
`express-*` file generators, it has no `fs.existsSync(componentFile)`
check — it writes unconditionally. -/
def reactComponentAction (cwd : JPath) (componentName : String)
    (fs : FS) (inj : Option (FS × String)) : ActionResult :=
  let componentDir := cwd ++ ["src", "components"]
  let componentFile := cwd ++ ["src", "components", componentName ++ ".jsx"]
  let blue := Msg.logBlue ("Creating React component: " ++ componentName)
  match inj with
  | some (f, e) =>
    { fs := f, msgs := [blue, Msg.errorRed "Error creating component:" e], exitCall := none }
  | none =>
    let fs1 := if !(fs.existsPath componentDir) then fs.mkdirRecursive componentDir else fs
    let fs2 := fs1.writeFile componentFile (jsTrim (componentTemplate componentName))
    { fs := fs2,
      msgs := [blue, Msg.logGreen ("Component " ++ componentName ++ " created successfully!")],
      exitCall := none }

/-- The `express-model <modelName>` action. -/
def expressModelAction (cwd : JPath) (modelName : String)
    (fs : FS) (inj : Option (FS × String)) : ActionResult :=
  let modelDir := cwd ++ ["models"]
  let modelFile := cwd ++ ["models", modelName ++ ".js"]
  let blue := Msg.logBlue ("Creating MongoDB model: " ++ modelName)
  match inj with
  | some (f, e) =>
    { fs := f, msgs := [blue, Msg.errorRed "Error creating model:" e], exitCall := none }
  | none =>
    let fs1 := if !(fs.existsPath modelDir) then fs.mkdirRecursive modelDir else fs
    if fs1.existsPath modelFile then
      { fs := fs1, msgs := [blue, Msg.logRed ("Model " ++ modelName ++ " already exists.")],
        exitCall := none }
    else
      { fs := fs1.writeFile modelFile (jsTrim (modelTemplate modelName)),
        msgs := [blue, Msg.logGreen ("Model " ++ modelName ++ " created successfully!")],
        exitCall := none }

/-- The `express-controller <controllerName>` action. -/
def expressControllerAction (cwd : JPath) (controllerName : String)
    (fs : FS) (inj : Option (FS × String)) : ActionResult :=
  let controllerDir := cwd ++ ["controllers"]
  let controllerFile := cwd ++ ["controllers", controllerName ++ ".js"]
  let blue := Msg.logBlue ("Creating MongoDB controller: " ++ controllerName)
  match inj with
  | some (f, e) =>
    { fs := f, msgs := [blue, Msg.errorRed "Error creating controller:" e], exitCall := none }
  | none =>
    let fs1 := if !(fs.existsPath controllerDir) then fs.mkdirRecursive controllerDir else fs
    if fs1.existsPath controllerFile then
      { fs := fs1,
        msgs := [blue, Msg.logRed ("Controller " ++ controllerName ++ " already exists.")],
        exitCall := none }
    else
      { fs := fs1.writeFile controllerFile (jsTrim controllerTemplate),
        msgs := [blue,
          Msg.logGreen ("Controller " ++ controllerName ++ " created successfully!")],
        exitCall := none }

/-- The `express-route <routeName>` action. -/
def expressRouteAction (cwd : JPath) (routeName : String)
    (fs : FS) (inj : Option (FS × String)) : ActionResult :=
  let routeDir := cwd ++ ["routes"]
  let routeFile := cwd ++ ["routes", routeName ++ ".js"]
  let blue := Msg.logBlue ("Creating route for: " ++ routeName)
  match inj with
  | some (f, e) =>
    { fs := f, msgs := [blue, Msg.errorRed "Error creating route:" e], exitCall := none }
  | none =>
    let fs1 := if !(fs.existsPath routeDir) then fs.mkdirRecursive routeDir else fs
    if fs1.existsPath routeFile then
      { fs := fs1, msgs := [blue, Msg.logRed ("Route " ++ routeName ++ " already exists.")],
        exitCall := none }
    else
      { fs := fs1.writeFile routeFile (jsTrim (routeTemplate routeName)),
        msgs := [blue, Msg.logGreen ("Route " ++ routeName ++ " created successfully!")],
        exitCall := none }

/-- The `express-middleware <fileName>` action. -/
def expressMiddlewareAction (cwd : JPath) (fileName : String)
    (fs : FS) (inj : Option (FS × String)) : ActionResult :=
  let middlewareDir := cwd ++ ["middlewares"]
  let middlewareFile := cwd ++ ["middlewares", fileName ++ ".js"]
  let blue := Msg.logBlue ("Creating middleware file: " ++ fileName)
  match inj with
  | some (f, e) =>
    { fs := f, msgs := [blue, Msg.errorRed "Error creating middleware file:" e], exitCall := none }
  | none =>
    let fs1 := if !(fs.existsPath middlewareDir) then fs.mkdirRecursive middlewareDir else fs
    if fs1.existsPath middlewareFile then
      { fs := fs1,
        msgs := [blue, Msg.logRed ("Middleware " ++ fileName ++ " already exists.")],
        exitCall := none }
    else
      { fs := fs1.writeFile middlewareFile (jsTrim (middlewareTemplate fileName)),
        msgs := [blue, Msg.logGreen ("Middleware " ++ fileName ++ " created successfully!")],
        exitCall := none }

/-- The seven commands registered on `program`. -/
inductive Cmd where
  | express
  | react
  | reactComponent
  | expressModel
  | expressController
  | expressRoute
  | expressMiddleware
deriving Repr, DecidableEq

/-- The five file-generation commands (they write a single generated
file, as opposed to copying a template tree). -/
def fileGenCmds : List Cmd :=
  [Cmd.reactComponent, Cmd.expressModel, Cmd.expressController,
   Cmd.expressRoute, Cmd.expressMiddleware]

/-- The ambient state a command runs in: the current working directory,
the filesystem, and the bundled template trees. -/
structure World where
  cwd : JPath
  fs : FS
  expressTemplate : Option Tpl := bundledExpressTemplate
  reactTemplate : Option Tpl := bundledReactTemplate
deriving Repr, DecidableEq

/-- The dispatcher: `program.parse` invokes exactly the matching action. -/
def runCmd (c : Cmd) (name : String) (w : World) (inj : Option (FS × String)) : ActionResult :=
  match c with
  | Cmd.express => expressAction w.cwd name w.expressTemplate w.fs inj
  | Cmd.react => reactAction w.cwd name w.reactTemplate w.fs inj
  | Cmd.reactComponent => reactComponentAction w.cwd name w.fs inj
  | Cmd.expressModel => expressModelAction w.cwd name w.fs inj
  | Cmd.expressController => expressControllerAction w.cwd name w.fs inj
  | Cmd.expressRoute => expressRouteAction w.cwd name w.fs inj
  | Cmd.expressMiddleware => expressMiddlewareAction w.cwd name w.fs inj

/-- The destination file a file-generation command writes, `none` for the
two tree-copy commands. -/
def fileGenTarget (c : Cmd) (cwd : JPath) (name : String) : Option JPath :=
  match c with
  | Cmd.express => none
  | Cmd.react => none
  | Cmd.reactComponent => some (cwd ++ ["src", "components", name ++ ".jsx"])
  | Cmd.expressModel => some (cwd ++ ["models", name ++ ".js"])
  | Cmd.expressController => some (cwd ++ ["controllers", name ++ ".js"])
  | Cmd.expressRoute => some (cwd ++ ["routes", name ++ ".js"])
  | Cmd.expressMiddleware => some (cwd ++ ["middlewares", name ++ ".js"])

/-- The target subdirectory a file-generation command ensures exists,
`none` for the two tree-copy commands. -/
def fileGenDir (c : Cmd) (cwd : JPath) : Option JPath :=
  match c with
  | Cmd.express => none
  | Cmd.react => none
  | Cmd.reactComponent => some (cwd ++ ["src", "components"])
  | Cmd.expressModel => some (cwd ++ ["models"])
  | Cmd.expressController => some (cwd ++ ["controllers"])
  | Cmd.expressRoute => some (cwd ++ ["routes"])
  | Cmd.expressMiddleware => some (cwd ++ ["middlewares"])

/-- The bundled template tree a tree-copy command uses, `none` for the
file-generation commands. -/
def cmdTemplate (c : Cmd) (w : World) : Option Tpl :=
  match c with
  | Cmd.express => w.expressTemplate
  | Cmd.react => w.reactTemplate
  | _ => none

/-- The files of `fs` strictly below directory `d`: their paths relative
to `d`, with their contents. -/
def FS.filesUnder (fs : FS) (d : JPath) : List (JPath × String) :=
  fs.files.filterMap (fun e =>
    if d.isPrefixOf e.1 && decide (d.length < e.1.length) then
      some (e.1.drop d.length, e.2)
    else none)

/-- Boolean substring test: `sub` occurs contiguously in `s`. -/
def strContainsB (s sub : String) : Bool :=
  s.data.tails.any (fun t => sub.data.isPrefixOf t)

/-- The identifiers imported at the top of `src/index.js`
(`Command`, `chalk`, `fs`, `path`, `fileURLToPath`). -/
def importedNames : List String :=
  ["Command", "chalk", "fs", "path", "fileURLToPath"]

/-- The top-level constants the module itself defines. -/
def topLevelConstNames : List String :=
  ["__filename", "__dirname", "program", "askUserConfirmation"]

/-- Node.js globals visible in an ES module without any import. -/
def nodeGlobalNames : List String :=
  ["process", "console", "Promise"]

/-- Every identifier in scope at module level in `src/index.js`. -/
def moduleScopeNames : List String :=
  importedNames ++ topLevelConstNames ++ nodeGlobalNames

/-- The module-scope identifiers referenced by the action callback body
of each command, read off the source. -/
def actionReferencedGlobals (c : Cmd) : List String :=
  match c with
  | Cmd.express => ["path", "__dirname", "process", "console", "chalk", "fs"]
  | Cmd.react => ["path", "__dirname", "process", "console", "chalk", "fs"]
  | Cmd.reactComponent => ["path", "process", "console", "chalk", "fs"]
  | Cmd.expressModel => ["path", "process", "console", "chalk", "fs"]
  | Cmd.expressController => ["path", "process", "console", "chalk", "fs"]
  | Cmd.expressRoute => ["path", "process", "console", "chalk", "fs"]
  | Cmd.expressMiddleware => ["path", "process", "console", "chalk", "fs"]

/-- The module-scope identifiers referenced by the top-level statements
of the module outside the command registrations (the `__filename`,
`__dirname`, `program` definitions, the `program.…` chains and the final
`program.parse(process.argv)`). -/
def topLevelStatementRefs : List String :=
  ["fileURLToPath", "path", "Command", "program", "process"]

/-- The free identifiers referenced by the body of
`askUserConfirmation`, in evaluation order: `readline.createInterface`
first, then `process.stdin`/`process.stdout`, then `new Promise`. -/
def askUserConfirmationBodyRefs : List String :=
  ["readline", "process", "Promise"]

/-- The first identifier of a body, in evaluation order, that no
enclosing scope defines; evaluating it throws a `ReferenceError`. -/
def firstUnresolvedRef (refs : List String) : Option String :=
  refs.find? (fun n => !(moduleScopeNames.contains n))

/-- Calling `askUserConfirmation`, under JS scoping: if the first
unresolved identifier of the body is `x`, the call throws
`ReferenceError: x is not defined`; otherwise it runs. -/
def callAskUserConfirmation : Except String Unit :=
  match firstUnresolvedRef askUserConfirmationBodyRefs with
  | some n => Except.error ("ReferenceError: " ++ n ++ " is not defined")
  | none => Except.ok ()

set_option maxRecDepth 10000

/-! ## String lemmas -/

theorem head_append_of_head (a b : String) (c : Char) (h : a.data.head? = some c) :
    (a ++ b).data.head? = some c := by
  rw [String.data_append, List.head?_append, h]; rfl

theorem rev_head_append_of_rev_head (a b : String) (c : Char)
    (h : b.data.reverse.head? = some c) : (a ++ b).data.reverse.head? = some c := by
  rw [String.data_append, List.reverse_append, List.head?_append, h]; rfl

/-- Trimming a template literal that wraps a body, whose first and last
characters are not whitespace, in a leading and a trailing newline
returns exactly the body. -/
theorem jsTrim_wrap (s : String) (c d : Char)
    (h1 : s.data.head? = some c) (hc : isJsWhitespace c = false)
    (h2 : s.data.reverse.head? = some d) (hd : isJsWhitespace d = false) :
    jsTrim ("\n" ++ s ++ "\n") = s := by
  obtain ⟨t, ht⟩ : ∃ t, s.data = c :: t := by
    cases hs : s.data with
    | nil => rw [hs] at h1; cases h1
    | cons a t => rw [hs] at h1; simp at h1; exact ⟨t, by rw [h1]⟩
  obtain ⟨u, hu⟩ : ∃ u, s.data.reverse = d :: u := by
    cases hs : s.data.reverse with
    | nil => rw [hs] at h2; cases h2
    | cons a u => rw [hs] at h2; simp at h2; exact ⟨u, by rw [h2]⟩
  apply String.ext
  show ((((("\n" ++ s ++ "\n").data).dropWhile isJsWhitespace).reverse.dropWhile
    isJsWhitespace).reverse) = s.data
  rw [String.data_append, String.data_append]
  have step1 : (("\n".data ++ s.data) ++ "\n".data).dropWhile isJsWhitespace
      = s.data ++ "\n".data := by
    rw [List.append_assoc]
    show List.dropWhile isJsWhitespace ('\n' :: (s.data ++ "\n".data)) = s.data ++ "\n".data
    rw [List.dropWhile_cons]
    simp only [show isJsWhitespace '\n' = true from by decide, if_true]
    rw [ht]
    show List.dropWhile isJsWhitespace (c :: (t ++ "\n".data)) = (c :: t) ++ "\n".data
    rw [List.dropWhile_cons]
    simp [hc]
  rw [step1]
  have step2 : (s.data ++ "\n".data).reverse = '\n' :: s.data.reverse := by
    rw [List.reverse_append]; rfl
  rw [step2]
  rw [List.dropWhile_cons]
  simp only [show isJsWhitespace '\n' = true from by decide, if_true]
  rw [hu, List.dropWhile_cons]
  simp only [hd, Bool.false_eq_true, if_false]
  rw [← hu, List.reverse_reverse]

theorem componentBody_head (n : String) : (componentBody n).data.head? = some 'i' := by
  unfold componentBody
  repeat apply head_append_of_head
  decide

theorem componentBody_last (n : String) : (componentBody n).data.reverse.head? = some ';' := by
  unfold componentBody
  apply rev_head_append_of_rev_head
  decide

theorem modelBody_head (n : String) : (modelBody n).data.head? = some 'i' := by
  unfold modelBody
  repeat apply head_append_of_head
  decide

theorem modelBody_last (n : String) : (modelBody n).data.reverse.head? = some ';' := by
  unfold modelBody
  apply rev_head_append_of_rev_head
  decide

theorem routeBody_head (n : String) : (routeBody n).data.head? = some 'i' := by
  unfold routeBody
  repeat apply head_append_of_head
  decide

theorem routeBody_last (n : String) : (routeBody n).data.reverse.head? = some ';' := by
  unfold routeBody
  apply rev_head_append_of_rev_head
  decide

theorem middlewareBody_head (n : String) : (middlewareBody n).data.head? = some '/' := by
  unfold middlewareBody
  repeat apply head_append_of_head
  decide

theorem middlewareBody_last (n : String) : (middlewareBody n).data.reverse.head? = some ';' := by
  unfold middlewareBody
  apply rev_head_append_of_rev_head
  decide

theorem jsTrim_componentTemplate (n : String) :
    jsTrim (componentTemplate n) = componentBody n :=
  jsTrim_wrap _ _ _ (componentBody_head n) (by decide) (componentBody_last n) (by decide)

theorem jsTrim_modelTemplate (n : String) :
    jsTrim (modelTemplate n) = modelBody n :=
  jsTrim_wrap _ _ _ (modelBody_head n) (by decide) (modelBody_last n) (by decide)

theorem jsTrim_routeTemplate (n : String) :
    jsTrim (routeTemplate n) = routeBody n :=
  jsTrim_wrap _ _ _ (routeBody_head n) (by decide) (routeBody_last n) (by decide)

theorem jsTrim_middlewareTemplate (n : String) :
    jsTrim (middlewareTemplate n) = middlewareBody n :=
  jsTrim_wrap _ _ _ (middlewareBody_head n) (by decide) (middlewareBody_last n) (by decide)

/-- Any explicit three-part decomposition witnesses the substring test. -/
theorem strContains_of_parts (p sub q : String) :
    strContainsB (p ++ sub ++ q) sub = true := by
  unfold strContainsB
  rw [List.any_eq_true]
  refine ⟨sub.data ++ q.data, ?_, ?_⟩
  · rw [List.mem_tails]
    rw [String.data_append, String.data_append, List.append_assoc]
    exact List.suffix_append p.data (sub.data ++ q.data)
  · rw [ List.isPrefixOf_iff_prefix]
    exact List.prefix_append sub.data q.data

/-- Every "… already exists." message contains `already exists`. -/
theorem contains_already (a : String) :
    strContainsB (a ++ " already exists.") "already exists" = true := by
  have h : (" already exists." : String) = " " ++ "already exists" ++ "." := by decide
  rw [h]
  have h2 : a ++ (" " ++ "already exists" ++ ".") = (a ++ " ") ++ "already exists" ++ "." := by
    simp [String.append_assoc]
  rw [h2]
  exact strContains_of_parts _ _ _

/-! ## Filesystem lemmas -/

theorem mkdir_files (fs : FS) (p : JPath) : (fs.mkdirRecursive p).files = fs.files := rfl

theorem writeFile_dirs (fs : FS) (p : JPath) (c : String) :
    (fs.writeFile p c).dirs = fs.dirs := by
  unfold FS.writeFile; split <;> rfl

theorem writeFile_append (fs : FS) (p : JPath) (c : String)
    (h : fs.files.any (fun e => e.1 == p) = false) :
    (fs.writeFile p c).files = fs.files ++ [(p, c)] := by
  simp [FS.writeFile, h]

theorem any_beq_iff_mem (l : List JPath) (q : JPath) :
    l.any (fun d => d == q) = true ↔ q ∈ l := by
  simp [List.any_eq_true]

theorem existsPath_of_mem_dirs (fs : FS) (q : JPath) (h : q ∈ fs.dirs) :
    fs.existsPath q = true := by
  unfold FS.existsPath
  rw [Bool.or_eq_true]
  exact Or.inr ((any_beq_iff_mem _ _).mpr h)

theorem any_key_map_write (l : List (JPath × String)) (p q : JPath) (c : String) :
    (l.map (fun e => if e.1 == p then (p, c) else e)).any (fun e => e.1 == q)
      = l.any (fun e => e.1 == q) := by
  induction l with
  | nil => rfl
  | cons e t ih =>
    rw [List.map_cons, List.any_cons, List.any_cons, ih]
    by_cases h : (e.1 == p) = true
    · have hep : e.1 = p := eq_of_beq h
      rw [if_pos h]
      show (p == q || _) = (e.1 == q || _)
      rw [hep]
    · rw [if_neg h]

theorem any_key_writeFile (fs : FS) (p q : JPath) (c : String) :
    (fs.writeFile p c).files.any (fun e => e.1 == q)
      = (fs.files.any (fun e => e.1 == q) || (p == q)) := by
  unfold FS.writeFile
  cases h : fs.files.any (fun e => e.1 == p) with
  | true =>
    simp only [h, if_true]
    rw [any_key_map_write]
    by_cases hpq : (p == q) = true
    · have hq : p = q := eq_of_beq hpq
      have : fs.files.any (fun e => e.1 == q) = true := by rw [← hq]; exact h
      simp [this]
    · simp [hpq]
  | false =>
    simp [h, List.any_append]

theorem existsPath_writeFile (fs : FS) (p q : JPath) (c : String) :
    (fs.writeFile p c).existsPath q = (fs.existsPath q || (p == q)) := by
  unfold FS.existsPath
  rw [any_key_writeFile, writeFile_dirs]
  cases fs.files.any (fun e => e.1 == q) <;> cases (p == q) <;>
    cases fs.dirs.any (fun d => d == q) <;> rfl

theorem mem_dirs_mkdir (fs : FS) (p q : JPath) :
    q ∈ (fs.mkdirRecursive p).dirs ↔ (q ∈ fs.dirs ∨ q ∈ pathPrefixes p) := by
  unfold FS.mkdirRecursive
  simp only [List.mem_append, List.mem_filter]
  constructor
  · rintro (h | ⟨h1, _⟩)
    · exact Or.inl h
    · exact Or.inr h1
  · rintro (h | h)
    · exact Or.inl h
    · by_cases hd : q ∈ fs.dirs
      · exact Or.inl hd
      · refine Or.inr ⟨h, ?_⟩
        cases ha : fs.dirs.any (fun d => d == q) with
        | false => rfl
        | true => exact absurd ((any_beq_iff_mem _ _).mp ha) hd
  
theorem mem_pathPrefixes_self (p : JPath) (h : p ≠ []) : p ∈ pathPrefixes p := by
  unfold pathPrefixes
  rw [List.mem_map]
  refine ⟨p.length - 1, ?_, ?_⟩
  · rw [List.mem_range]; have := List.length_pos.mpr h; omega
  · have h2 : p.length - 1 + 1 = p.length := by have := List.length_pos.mpr h; omega
    rw [h2, List.take_length]

theorem length_le_of_mem_pathPrefixes (q p : JPath) (h : q ∈ pathPrefixes p) :
    q.length ≤ p.length := by
  unfold pathPrefixes at h
  rw [List.mem_map] at h
  obtain ⟨i, _, rfl⟩ := h
  simp [List.length_take]

theorem existsPath_mkdir_self (fs : FS) (p : JPath) (h : p ≠ []) :
    (fs.mkdirRecursive p).existsPath p = true :=
  existsPath_of_mem_dirs _ _ ((mem_dirs_mkdir fs p p).mpr (Or.inr (mem_pathPrefixes_self p h)))

theorem existsPath_mkdir_of (fs : FS) (p q : JPath) (h : fs.existsPath q = true) :
    (fs.mkdirRecursive p).existsPath q = true := by
  unfold FS.existsPath at h ⊢
  rw [Bool.or_eq_true] at h ⊢
  rcases h with h | h
  · exact Or.inl h
  · exact Or.inr ((any_beq_iff_mem _ _).mpr
      ((mem_dirs_mkdir fs p q).mpr (Or.inl ((any_beq_iff_mem _ _).mp h))))

theorem existsPath_mkdir_false (fs : FS) (p q : JPath)
    (h : fs.existsPath q = false) (hlen : p.length < q.length) :
    (fs.mkdirRecursive p).existsPath q = false := by
  unfold FS.existsPath at h ⊢
  rw [Bool.or_eq_false_iff] at h ⊢
  refine ⟨h.1, ?_⟩
  rw [← Bool.not_eq_true, any_beq_iff_mem, mem_dirs_mkdir]
  rintro (hd | hd)
  · rw [← any_beq_iff_mem] at hd
    rw [h.2] at hd
    cases hd
  · have := length_le_of_mem_pathPrefixes q p hd
    omega

theorem find?_map_write (l : List (JPath × String)) (p : JPath) (c : String)
    (h : l.any (fun e => e.1 == p) = true) :
    (l.map (fun e => if e.1 == p then (p, c) else e)).find? (fun e => e.1 == p)
      = some (p, c) := by
  induction l with
  | nil => cases h
  | cons e t ih =>
    rw [List.map_cons]
    by_cases he : (e.1 == p) = true
    · rw [if_pos he]
      rw [List.find?_cons_of_pos]
      simp
    · rw [if_neg he, List.find?_cons_of_neg _ (by simpa using he)]
      rw [List.any_cons] at h
      rcases Bool.or_eq_true_iff.mp h with h1 | h1
      · exact absurd h1 he
      · exact ih h1

theorem readFile_writeFile_self (fs : FS) (p : JPath) (c : String) :
    (fs.writeFile p c).readFile p = some c := by
  unfold FS.writeFile FS.readFile
  cases h : fs.files.any (fun e => e.1 == p) with
  | true =>
    simp only [h, if_true]
    rw [find?_map_write fs.files p c h]
    rfl
  | false =>
    simp only [h, Bool.false_eq_true, if_false]
    rw [List.find?_append]
    have h1 : fs.files.find? (fun e => e.1 == p) = none := by
      rw [List.find?_eq_none]
      intro x hx hbeq
      have : fs.files.any (fun e => e.1 == p) = true :=
        List.any_eq_true.mpr ⟨x, hx, hbeq⟩
      rw [h] at this; cases this
    rw [h1]
    simp

theorem writeFile_values_self (fs : FS) (p : JPath) (c : String) :
    ∀ e ∈ (fs.writeFile p c).files, e.1 = p → e.2 = c := by
  unfold FS.writeFile
  cases h : fs.files.any (fun e => e.1 == p) with
  | true =>
    simp only [h, if_true]
    intro e he hep
    rw [List.mem_map] at he
    obtain ⟨x, _, rfl⟩ := he
    by_cases hx : (x.1 == p) = true
    · rw [if_pos hx]
    · rw [if_neg hx] at hep ⊢
      exact absurd (by simp [hep]) hx
  | false =>
    simp only [h, Bool.false_eq_true, if_false]
    intro e he hep
    rw [List.mem_append] at he
    rcases he with he | he
    · have : fs.files.any (fun e => e.1 == p) = true :=
        List.any_eq_true.mpr ⟨e, he, by simp [hep]⟩
      rw [h] at this; cases this
    · simp at he
      rw [he]

theorem map_write_id (l : List (JPath × String)) (p : JPath) (c : String)
    (hval : ∀ e ∈ l, e.1 = p → e.2 = c) :
    l.map (fun e => if e.1 == p then (p, c) else e) = l := by
  induction l with
  | nil => rfl
  | cons e t ih =>
    rw [List.map_cons]
    rw [ih (fun x hx => hval x (List.mem_cons_of_mem e hx))]
    by_cases he : (e.1 == p) = true
    · rw [if_pos he]
      have h1 : e.1 = p := eq_of_beq he
      have h2 : e.2 = c := hval e (List.mem_cons_self e t) h1
      rw [← h1, ← h2]
    · rw [if_neg he]

theorem writeFile_of_values (fs : FS) (p : JPath) (c : String)
    (hany : fs.files.any (fun e => e.1 == p) = true)
    (hval : ∀ e ∈ fs.files, e.1 = p → e.2 = c) :
    fs.writeFile p c = fs := by
  unfold FS.writeFile
  rw [if_pos hany, map_write_id fs.files p c hval]

theorem writeFile_writeFile_self (fs : FS) (p : JPath) (c : String) :
    (fs.writeFile p c).writeFile p c = fs.writeFile p c := by
  apply writeFile_of_values
  · rw [any_key_writeFile]
    simp
  · exact writeFile_values_self fs p c

/-! ## The shared shape of the file-generation actions -/

theorem fs1_files (fs : FS) (dir : JPath) :
    (if !(fs.existsPath dir) then fs.mkdirRecursive dir else fs).files = fs.files := by
  split
  · exact mkdir_files fs dir
  · rfl

theorem fs1_existsPath_file (fs : FS) (dir file : JPath)
    (hfl : dir.length < file.length) (hex : fs.existsPath file = false) :
    (if !(fs.existsPath dir) then fs.mkdirRecursive dir else fs).existsPath file = false := by
  cases h : fs.existsPath dir with
  | true => simp [h, hex]
  | false =>
    simp only [h, Bool.not_false, if_true]
    exact existsPath_mkdir_false fs dir file hex hfl

theorem fs1_existsPath_dir (fs : FS) (dir : JPath) (h : dir ≠ []) :
    (if !(fs.existsPath dir) then fs.mkdirRecursive dir else fs).existsPath dir = true := by
  cases hd : fs.existsPath dir with
  | true => simp [hd]
  | false =>
    simp only [hd, Bool.not_false, if_true]
    exact existsPath_mkdir_self fs dir h

theorem fs1_prefixes_mem (fs : FS) (dir : JPath) (h : fs.existsPath dir = false) :
    ∀ q ∈ pathPrefixes dir,
      q ∈ (if !(fs.existsPath dir) then fs.mkdirRecursive dir else fs).dirs := by
  intro q hq
  simp only [h, Bool.not_false, if_true]
  exact (mem_dirs_mkdir fs dir q).mpr (Or.inr hq)

theorem any_files_of_existsPath_false (fs : FS) (q : JPath) (h : fs.existsPath q = false) :
    fs.files.any (fun e => e.1 == q) = false := by
  unfold FS.existsPath at h
  exact (Bool.or_eq_false_iff.mp h).1

/-- C2: for every route name, running `express-route` twice on a
filesystem where the route file is absent leaves exactly one
`routes/<name>.js`, whose content is the one the first run wrote
(the trimmed route template); the second run performs no write (it
returns the filesystem of the first run unchanged) and prints a red message
containing "already exists". -/
theorem claim_c2_expressRoute_run_twice (cwd : JPath) (name : String) (fs : FS)
    (hex : fs.existsPath (cwd ++ ["routes", name ++ ".js"]) = false) :
    (expressRouteAction cwd name (expressRouteAction cwd name fs none).fs none).fs
      = (expressRouteAction cwd name fs none).fs
    ∧ ((expressRouteAction cwd name fs none).fs.files.filter
        (fun e => e.1 == cwd ++ ["routes", name ++ ".js"])).length = 1
    ∧ (expressRouteAction cwd name fs none).fs.readFile (cwd ++ ["routes", name ++ ".js"])
        = some (routeBody name)
    ∧ Msg.logRed ("Route " ++ name ++ " already exists.")
        ∈ (expressRouteAction cwd name (expressRouteAction cwd name fs none).fs none).msgs
    ∧ strContainsB ("Route " ++ name ++ " already exists.") "already exists" = true := by
  have hfl : (cwd ++ ["routes"]).length < (cwd ++ ["routes", name ++ ".js"]).length := by
    simp
  have h1 : (if !(fs.existsPath (cwd ++ ["routes"])) then
      fs.mkdirRecursive (cwd ++ ["routes"]) else fs).existsPath
      (cwd ++ ["routes", name ++ ".js"]) = false :=
    fs1_existsPath_file fs _ _ hfl hex
  have hr1 : expressRouteAction cwd name fs none
      = { fs := (if !(fs.existsPath (cwd ++ ["routes"])) then
                   fs.mkdirRecursive (cwd ++ ["routes"]) else fs).writeFile
                 (cwd ++ ["routes", name ++ ".js"]) (jsTrim (routeTemplate name)),
          msgs := [Msg.logBlue ("Creating route for: " ++ name),
                   Msg.logGreen ("Route " ++ name ++ " created successfully!")],
          exitCall := none } := by
    simp only [expressRouteAction, h1, Bool.false_eq_true, if_false]
  have hdirne : (cwd ++ ["routes"] : JPath) ≠ [] := by simp
  have hdir1 : (expressRouteAction cwd name fs none).fs.existsPath (cwd ++ ["routes"]) = true := by
    rw [hr1]
    show ((if !(fs.existsPath (cwd ++ ["routes"])) then
      fs.mkdirRecursive (cwd ++ ["routes"]) else fs).writeFile
      (cwd ++ ["routes", name ++ ".js"]) (jsTrim (routeTemplate name))).existsPath
      (cwd ++ ["routes"]) = true
    rw [existsPath_writeFile]
    rw [fs1_existsPath_dir fs _ hdirne]
    rfl
  have hfile1 : (expressRouteAction cwd name fs none).fs.existsPath
      (cwd ++ ["routes", name ++ ".js"]) = true := by
    rw [hr1]
    show ((if !(fs.existsPath (cwd ++ ["routes"])) then
      fs.mkdirRecursive (cwd ++ ["routes"]) else fs).writeFile
      (cwd ++ ["routes", name ++ ".js"]) (jsTrim (routeTemplate name))).existsPath
      (cwd ++ ["routes", name ++ ".js"]) = true
    rw [existsPath_writeFile]
    simp
  have hr2gen : ∀ g : FS, g.existsPath (cwd ++ ["routes"]) = true →
      g.existsPath (cwd ++ ["routes", name ++ ".js"]) = true →
      expressRouteAction cwd name g none
        = { fs := g,
            msgs := [Msg.logBlue ("Creating route for: " ++ name),
                     Msg.logRed ("Route " ++ name ++ " already exists.")],
            exitCall := none } := by
    intro g hd hf
    simp only [expressRouteAction, hd, hf, Bool.not_true, Bool.false_eq_true, if_false, if_true]
  have hr2 := hr2gen (expressRouteAction cwd name fs none).fs hdir1 hfile1
  refine ⟨?_, ?_, ?_, ?_, ?_⟩
  · rw [hr2]
  · rw [hr1]
    show (((if !(fs.existsPath (cwd ++ ["routes"])) then
        fs.mkdirRecursive (cwd ++ ["routes"]) else fs).writeFile
        (cwd ++ ["routes", name ++ ".js"]) (jsTrim (routeTemplate name))).files.filter
        (fun e => e.1 == cwd ++ ["routes", name ++ ".js"])).length = 1
    have hany : (if !(fs.existsPath (cwd ++ ["routes"])) then
        fs.mkdirRecursive (cwd ++ ["routes"]) else fs).files.any
        (fun e => e.1 == cwd ++ ["routes", name ++ ".js"]) = false :=
      any_files_of_existsPath_false _ _ h1
    rw [writeFile_append _ _ _ hany, List.filter_append]
    have hnil : (if !(fs.existsPath (cwd ++ ["routes"])) then
        fs.mkdirRecursive (cwd ++ ["routes"]) else fs).files.filter
        (fun e => e.1 == cwd ++ ["routes", name ++ ".js"]) = [] := by
      rw [List.filter_eq_nil_iff]
      intro e he hbeq
      have : (if !(fs.existsPath (cwd ++ ["routes"])) then
          fs.mkdirRecursive (cwd ++ ["routes"]) else fs).files.any
          (fun e => e.1 == cwd ++ ["routes", name ++ ".js"]) = true :=
        List.any_eq_true.mpr ⟨e, he, hbeq⟩
      rw [hany] at this
      cases this
    rw [hnil]
    simp
  · rw [hr1]
    show ((if !(fs.existsPath (cwd ++ ["routes"])) then
        fs.mkdirRecursive (cwd ++ ["routes"]) else fs).writeFile
        (cwd ++ ["routes", name ++ ".js"]) (jsTrim (routeTemplate name))).readFile
        (cwd ++ ["routes", name ++ ".js"]) = some (routeBody name)
    rw [readFile_writeFile_self, jsTrim_routeTemplate]
  · rw [hr2]
    simp
  · exact contains_already ("Route " ++ name)

/-- Witness for C2 at `cwd = []`, name `Item`, the empty filesystem. -/
theorem claim_c2_witness :
    (expressRouteAction [] "Item" (expressRouteAction [] "Item" ⟨[], []⟩ none).fs none).fs
      = (expressRouteAction [] "Item" ⟨[], []⟩ none).fs
    ∧ ((expressRouteAction [] "Item" ⟨[], []⟩ none).fs.files.filter
        (fun e => e.1 == [] ++ ["routes", "Item" ++ ".js"])).length = 1
    ∧ (expressRouteAction [] "Item" ⟨[], []⟩ none).fs.readFile ([] ++ ["routes", "Item" ++ ".js"])
        = some (routeBody "Item")
    ∧ Msg.logRed ("Route " ++ "Item" ++ " already exists.")
        ∈ (expressRouteAction [] "Item" (expressRouteAction [] "Item" ⟨[], []⟩ none).fs none).msgs
    ∧ strContainsB ("Route " ++ "Item" ++ " already exists.") "already exists" = true :=
  claim_c2_expressRoute_run_twice [] "Item" ⟨[], []⟩ (by decide)

/-- C3: for every model name `N`, `express-model N` on a filesystem where
`models/N.js` is absent writes that file with the trimmed model template
as content, and that content contains `const NSchema`,
the model registration for `N` and `export default N;`. -/
theorem claim_c3_expressModel_content (cwd : JPath) (N : String) (fs : FS)
    (hex : fs.existsPath (cwd ++ ["models", N ++ ".js"]) = false) :
    (expressModelAction cwd N fs none).fs.readFile (cwd ++ ["models", N ++ ".js"])
        = some (modelBody N)
    ∧ strContainsB (modelBody N) ("const " ++ N ++ "Schema") = true
    ∧ strContainsB (modelBody N)
        ("mongoose.model(\x27" ++ N ++ "\x27, " ++ N ++ "Schema)") = true
    ∧ strContainsB (modelBody N) ("export default " ++ N ++ ";") = true := by
  have hfl : (cwd ++ ["models"]).length < (cwd ++ ["models", N ++ ".js"]).length := by
    simp
  have h1 : (if !(fs.existsPath (cwd ++ ["models"])) then
      fs.mkdirRecursive (cwd ++ ["models"]) else fs).existsPath
      (cwd ++ ["models", N ++ ".js"]) = false :=
    fs1_existsPath_file fs _ _ hfl hex
  have hr1 : expressModelAction cwd N fs none
      = { fs := (if !(fs.existsPath (cwd ++ ["models"])) then
                   fs.mkdirRecursive (cwd ++ ["models"]) else fs).writeFile
                 (cwd ++ ["models", N ++ ".js"]) (jsTrim (modelTemplate N)),
          msgs := [Msg.logBlue ("Creating MongoDB model: " ++ N),
                   Msg.logGreen ("Model " ++ N ++ " created successfully!")],
          exitCall := none } := by
    simp only [expressModelAction, h1, Bool.false_eq_true, if_false]
  refine ⟨?_, ?_, ?_, ?_⟩
  · rw [hr1]
    show ((if !(fs.existsPath (cwd ++ ["models"])) then
        fs.mkdirRecursive (cwd ++ ["models"]) else fs).writeFile
        (cwd ++ ["models", N ++ ".js"]) (jsTrim (modelTemplate N))).readFile
        (cwd ++ ["models", N ++ ".js"]) = some (modelBody N)
    rw [readFile_writeFile_self, jsTrim_modelTemplate]
  · have he : modelBody N
        = "import mongoose from \x27mongoose\x27;\n\n" ++ ("const " ++ N ++ "Schema")
          ++ (" = new mongoose.Schema(\x7b\n  // Define your schema here\n  name: \x7b type: String, required: true \x7d,\n  createdAt: \x7b type: Date, default: Date.now \x7d,\n\x7d);\n\nconst "
              ++ N ++ " = mongoose.model(\x27" ++ N ++ "\x27, " ++ N
              ++ "Schema);\n\nexport default " ++ N ++ ";") := by
      unfold modelBody
      rw [show ("import mongoose from \x27mongoose\x27;\n\nconst " : String)
            = "import mongoose from \x27mongoose\x27;\n\n" ++ "const " from by decide,
          show ("Schema = new mongoose.Schema(\x7b\n  // Define your schema here\n  name: \x7b type: String, required: true \x7d,\n  createdAt: \x7b type: Date, default: Date.now \x7d,\n\x7d);\n\nconst " : String)
            = "Schema" ++ " = new mongoose.Schema(\x7b\n  // Define your schema here\n  name: \x7b type: String, required: true \x7d,\n  createdAt: \x7b type: Date, default: Date.now \x7d,\n\x7d);\n\nconst " from by decide]
      simp only [String.append_assoc]
    rw [he]
    exact strContains_of_parts _ _ _
  · have he : modelBody N
        = ("import mongoose from \x27mongoose\x27;\n\nconst " ++ N
            ++ "Schema = new mongoose.Schema(\x7b\n  // Define your schema here\n  name: \x7b type: String, required: true \x7d,\n  createdAt: \x7b type: Date, default: Date.now \x7d,\n\x7d);\n\nconst "
            ++ N ++ " = ")
          ++ ("mongoose.model(\x27" ++ N ++ "\x27, " ++ N ++ "Schema)")
          ++ (";\n\nexport default " ++ N ++ ";") := by
      unfold modelBody
      rw [show (" = mongoose.model(\x27" : String) = " = " ++ "mongoose.model(\x27"
            from by decide,
          show ("Schema);\n\nexport default " : String) = "Schema)" ++ ";\n\nexport default "
            from by decide]
      simp only [String.append_assoc]
    rw [he]
    exact strContains_of_parts _ _ _
  · have he : modelBody N
        = ("import mongoose from \x27mongoose\x27;\n\nconst " ++ N
            ++ "Schema = new mongoose.Schema(\x7b\n  // Define your schema here\n  name: \x7b type: String, required: true \x7d,\n  createdAt: \x7b type: Date, default: Date.now \x7d,\n\x7d);\n\nconst "
            ++ N ++ " = mongoose.model(\x27" ++ N ++ "\x27, " ++ N ++ "Schema);\n\n")
          ++ ("export default " ++ N ++ ";") ++ "" := by
      unfold modelBody
      rw [show ("Schema);\n\nexport default " : String) = "Schema);\n\n" ++ "export default "
            from by decide]
      simp only [String.append_assoc, String.append_empty]
    rw [he]
    exact strContains_of_parts _ _ _

/-- Witness for C3 at `cwd = []`, name `Widget`, the empty filesystem. -/
theorem claim_c3_witness :
    (expressModelAction [] "Widget" ⟨[], []⟩ none).fs.readFile ([] ++ ["models", "Widget" ++ ".js"])
        = some (modelBody "Widget")
    ∧ strContainsB (modelBody "Widget") ("const " ++ "Widget" ++ "Schema") = true
    ∧ strContainsB (modelBody "Widget")
        ("mongoose.model(\x27" ++ "Widget" ++ "\x27, " ++ "Widget" ++ "Schema)") = true
    ∧ strContainsB (modelBody "Widget") ("export default " ++ "Widget" ++ ";") = true :=
  claim_c3_expressModel_content [] "Widget" ⟨[], []⟩ (by decide)

/-- C9: the content `express-controller` writes is the constant
`//Your Code here`, independent of the controller name: any two
invocations (any names, any working directories, any filesystems on
which the target is absent) write byte-identical content. -/
theorem claim_c9_controller_content_constant (cwd1 cwd2 : JPath) (n1 n2 : String)
    (f1 f2 : FS)
    (h1 : f1.existsPath (cwd1 ++ ["controllers", n1 ++ ".js"]) = false)
    (h2 : f2.existsPath (cwd2 ++ ["controllers", n2 ++ ".js"]) = false) :
    (expressControllerAction cwd1 n1 f1 none).fs.readFile
        (cwd1 ++ ["controllers", n1 ++ ".js"]) = some "//Your Code here"
    ∧ (expressControllerAction cwd2 n2 f2 none).fs.readFile
        (cwd2 ++ ["controllers", n2 ++ ".js"]) = some "//Your Code here"
    ∧ (expressControllerAction cwd1 n1 f1 none).fs.readFile
        (cwd1 ++ ["controllers", n1 ++ ".js"])
      = (expressControllerAction cwd2 n2 f2 none).fs.readFile
        (cwd2 ++ ["controllers", n2 ++ ".js"]) := by
  have main : ∀ (cwd : JPath) (n : String) (fs : FS),
      fs.existsPath (cwd ++ ["controllers", n ++ ".js"]) = false →
      (expressControllerAction cwd n fs none).fs.readFile
        (cwd ++ ["controllers", n ++ ".js"]) = some "//Your Code here" := by
    intro cwd n fs hex
    have hfl : (cwd ++ ["controllers"]).length < (cwd ++ ["controllers", n ++ ".js"]).length := by
      simp
    have hc1 : (if !(fs.existsPath (cwd ++ ["controllers"])) then
        fs.mkdirRecursive (cwd ++ ["controllers"]) else fs).existsPath
        (cwd ++ ["controllers", n ++ ".js"]) = false :=
      fs1_existsPath_file fs _ _ hfl hex
    have hr1 : expressControllerAction cwd n fs none
        = { fs := (if !(fs.existsPath (cwd ++ ["controllers"])) then
                     fs.mkdirRecursive (cwd ++ ["controllers"]) else fs).writeFile
                   (cwd ++ ["controllers", n ++ ".js"]) (jsTrim controllerTemplate),
            msgs := [Msg.logBlue ("Creating MongoDB controller: " ++ n),
                     Msg.logGreen ("Controller " ++ n ++ " created successfully!")],
            exitCall := none } := by
      simp only [expressControllerAction, hc1, Bool.false_eq_true, if_false]
    rw [hr1]
    show ((if !(fs.existsPath (cwd ++ ["controllers"])) then
        fs.mkdirRecursive (cwd ++ ["controllers"]) else fs).writeFile
        (cwd ++ ["controllers", n ++ ".js"]) (jsTrim controllerTemplate)).readFile
        (cwd ++ ["controllers", n ++ ".js"]) = some "//Your Code here"
    rw [readFile_writeFile_self]
    rfl
  refine ⟨main cwd1 n1 f1 h1, main cwd2 n2 f2 h2, ?_⟩
  rw [main cwd1 n1 f1 h1, main cwd2 n2 f2 h2]

/-- Witness for C9 with names `Alpha`, `Beta` on empty filesystems. -/
theorem claim_c9_witness :
    (expressControllerAction [] "Alpha" ⟨[], []⟩ none).fs.readFile
        ([] ++ ["controllers", "Alpha" ++ ".js"]) = some "//Your Code here"
    ∧ (expressControllerAction [] "Beta" ⟨[], []⟩ none).fs.readFile
        ([] ++ ["controllers", "Beta" ++ ".js"]) = some "//Your Code here"
    ∧ (expressControllerAction [] "Alpha" ⟨[], []⟩ none).fs.readFile
        ([] ++ ["controllers", "Alpha" ++ ".js"])
      = (expressControllerAction [] "Beta" ⟨[], []⟩ none).fs.readFile
        ([] ++ ["controllers", "Beta" ++ ".js"]) :=
  claim_c9_controller_content_constant [] [] "Alpha" "Beta" ⟨[], []⟩ ⟨[], []⟩
    (by decide) (by decide)

/-- C5: every file-generation command creates its target subdirectory,
including intermediate directories, when it is absent; and the concrete
scenario: `react-component Header` on an empty filesystem creates
`src` and `src/components` and writes `src/components/Header.jsx`
containing a component literally named `Header`. -/
theorem claim_c5_mkdir_recursive :
    (∀ (c : Cmd) (n : String) (w : World) (d : JPath),
      fileGenDir c w.cwd = some d → w.fs.existsPath d = false →
      ∀ q ∈ pathPrefixes d, q ∈ (runCmd c n w none).fs.dirs)
    ∧ (runCmd Cmd.reactComponent "Header" { cwd := [], fs := ⟨[], []⟩ } none).fs.dirs
        = [["src"], ["src", "components"]]
    ∧ (runCmd Cmd.reactComponent "Header" { cwd := [], fs := ⟨[], []⟩ } none).fs.readFile
        ["src", "components", "Header.jsx"] = some (componentBody "Header")
    ∧ strContainsB (componentBody "Header") "const Header" = true
    ∧ strContainsB (componentBody "Header") "<h1>Header</h1>" = true := by
  constructor
  · intro c n w d hsome hd q hq
    cases c with
    | express => cases hsome
    | react => cases hsome
    | reactComponent =>
      injection hsome with h
      subst h
      show q ∈ (reactComponentAction w.cwd n w.fs none).fs.dirs
      simp only [reactComponentAction]
      rw [writeFile_dirs]
      exact fs1_prefixes_mem w.fs _ hd q hq
    | expressModel =>
      injection hsome with h
      subst h
      show q ∈ (expressModelAction w.cwd n w.fs none).fs.dirs
      simp only [expressModelAction]
      rw [apply_ite ActionResult.fs, apply_ite FS.dirs, writeFile_dirs, ite_self]
      exact fs1_prefixes_mem w.fs _ hd q hq
    | expressController =>
      injection hsome with h
      subst h
      show q ∈ (expressControllerAction w.cwd n w.fs none).fs.dirs
      simp only [expressControllerAction]
      rw [apply_ite ActionResult.fs, apply_ite FS.dirs, writeFile_dirs, ite_self]
      exact fs1_prefixes_mem w.fs _ hd q hq
    | expressRoute =>
      injection hsome with h
      subst h
      show q ∈ (expressRouteAction w.cwd n w.fs none).fs.dirs
      simp only [expressRouteAction]
      rw [apply_ite ActionResult.fs, apply_ite FS.dirs, writeFile_dirs, ite_self]
      exact fs1_prefixes_mem w.fs _ hd q hq
    | expressMiddleware =>
      injection hsome with h
      subst h
      show q ∈ (expressMiddlewareAction w.cwd n w.fs none).fs.dirs
      simp only [expressMiddlewareAction]
      rw [apply_ite ActionResult.fs, apply_ite FS.dirs, writeFile_dirs, ite_self]
      exact fs1_prefixes_mem w.fs _ hd q hq
  · refine ⟨by decide, by decide, by decide, by decide⟩

/-- Witness for C5: `react-component Header` on the empty filesystem
creates the intermediate directory `src` and the target
`src/components`. -/
theorem claim_c5_witness :
    ["src"] ∈ (runCmd Cmd.reactComponent "Header" { cwd := [], fs := ⟨[], []⟩ } none).fs.dirs
    ∧ ["src", "components"]
        ∈ (runCmd Cmd.reactComponent "Header" { cwd := [], fs := ⟨[], []⟩ } none).fs.dirs :=
  ⟨claim_c5_mkdir_recursive.1 Cmd.reactComponent "Header" { cwd := [], fs := ⟨[], []⟩ }
      ["src", "components"] rfl (by decide) ["src"] (by decide),
   claim_c5_mkdir_recursive.1 Cmd.reactComponent "Header" { cwd := [], fs := ⟨[], []⟩ }
      ["src", "components"] rfl (by decide) ["src", "components"] (by decide)⟩

theorem existsPath_of_any_files (fs : FS) (q : JPath)
    (h : fs.files.any (fun e => e.1 == q) = true) : fs.existsPath q = true := by
  unfold FS.existsPath
  rw [h]
  rfl

/-- C1 counterexample: `react-component` does not check whether the
destination file exists.  On a filesystem where
`src/components/Header.jsx` already exists with content `old content`,
it performs a write (the file list changes: the content is replaced by
the freshly generated component) and prints no "already exists" message
(its messages are exactly the blue and the green log). -/
theorem claim_c1_counterexample :
    (reactComponentAction [] "Header"
        ⟨[(["src", "components", "Header.jsx"], "old content")],
         [["src"], ["src", "components"]]⟩ none).fs.files
      ≠ [(["src", "components", "Header.jsx"], "old content")]
    ∧ (reactComponentAction [] "Header"
        ⟨[(["src", "components", "Header.jsx"], "old content")],
         [["src"], ["src", "components"]]⟩ none).msgs
      = [Msg.logBlue "Creating React component: Header",
         Msg.logGreen "Component Header created successfully!"] := by
  decide

/-- C1 amended: the four `express-*` file-generation commands check the
destination and, when the file exists, print a red message containing
"already exists" and perform no write; `react-component` has no such
check and writes unconditionally, but running it twice with the same
name rewrites identical content, so the filesystem after the second run
equals the one after the first. -/
theorem claim_c1_amended_existence_check :
    (∀ (c : Cmd) (n : String) (w : World) (tgt : JPath),
      (c = Cmd.expressModel ∨ c = Cmd.expressController ∨ c = Cmd.expressRoute ∨
        c = Cmd.expressMiddleware) →
      fileGenTarget c w.cwd n = some tgt →
      w.fs.files.any (fun e => e.1 == tgt) = true →
      (runCmd c n w none).fs.files = w.fs.files
      ∧ ∃ s, Msg.logRed s ∈ (runCmd c n w none).msgs
          ∧ strContainsB s "already exists" = true)
    ∧ (∀ (n : String) (cwd : JPath) (fs : FS),
      (reactComponentAction cwd n (reactComponentAction cwd n fs none).fs none).fs
        = (reactComponentAction cwd n fs none).fs) := by
  constructor
  · intro c n w tgt hc hsome hany
    rcases hc with rfl | rfl | rfl | rfl
    · injection hsome with h
      subst h
      have hex1 : (if !(w.fs.existsPath (w.cwd ++ ["models"])) then
          w.fs.mkdirRecursive (w.cwd ++ ["models"]) else w.fs).existsPath
          (w.cwd ++ ["models", n ++ ".js"]) = true := by
        apply existsPath_of_any_files
        rw [fs1_files]
        exact hany
      have hr : runCmd Cmd.expressModel n w none
          = { fs := (if !(w.fs.existsPath (w.cwd ++ ["models"])) then
                       w.fs.mkdirRecursive (w.cwd ++ ["models"]) else w.fs),
              msgs := [Msg.logBlue ("Creating MongoDB model: " ++ n),
                       Msg.logRed ("Model " ++ n ++ " already exists.")],
              exitCall := none } := by
        simp only [runCmd, expressModelAction, hex1, if_true]
      rw [hr]
      refine ⟨fs1_files w.fs _, ⟨"Model " ++ n ++ " already exists.", ?_, ?_⟩⟩
      · simp
      · exact contains_already ("Model " ++ n)
    · injection hsome with h
      subst h
      have hex1 : (if !(w.fs.existsPath (w.cwd ++ ["controllers"])) then
          w.fs.mkdirRecursive (w.cwd ++ ["controllers"]) else w.fs).existsPath
          (w.cwd ++ ["controllers", n ++ ".js"]) = true := by
        apply existsPath_of_any_files
        rw [fs1_files]
        exact hany
      have hr : runCmd Cmd.expressController n w none
          = { fs := (if !(w.fs.existsPath (w.cwd ++ ["controllers"])) then
                       w.fs.mkdirRecursive (w.cwd ++ ["controllers"]) else w.fs),
              msgs := [Msg.logBlue ("Creating MongoDB controller: " ++ n),
                       Msg.logRed ("Controller " ++ n ++ " already exists.")],
              exitCall := none } := by
        simp only [runCmd, expressControllerAction, hex1, if_true]
      rw [hr]
      refine ⟨fs1_files w.fs _, ⟨"Controller " ++ n ++ " already exists.", ?_, ?_⟩⟩
      · simp
      · exact contains_already ("Controller " ++ n)
    · injection hsome with h
      subst h
      have hex1 : (if !(w.fs.existsPath (w.cwd ++ ["routes"])) then
          w.fs.mkdirRecursive (w.cwd ++ ["routes"]) else w.fs).existsPath
          (w.cwd ++ ["routes", n ++ ".js"]) = true := by
        apply existsPath_of_any_files
        rw [fs1_files]
        exact hany
      have hr : runCmd Cmd.expressRoute n w none
          = { fs := (if !(w.fs.existsPath (w.cwd ++ ["routes"])) then
                       w.fs.mkdirRecursive (w.cwd ++ ["routes"]) else w.fs),
              msgs := [Msg.logBlue ("Creating route for: " ++ n),
                       Msg.logRed ("Route " ++ n ++ " already exists.")],
              exitCall := none } := by
        simp only [runCmd, expressRouteAction, hex1, if_true]
      rw [hr]
      refine ⟨fs1_files w.fs _, ⟨"Route " ++ n ++ " already exists.", ?_, ?_⟩⟩
      · simp
      · exact contains_already ("Route " ++ n)
    · injection hsome with h
      subst h
      have hex1 : (if !(w.fs.existsPath (w.cwd ++ ["middlewares"])) then
          w.fs.mkdirRecursive (w.cwd ++ ["middlewares"]) else w.fs).existsPath
          (w.cwd ++ ["middlewares", n ++ ".js"]) = true := by
        apply existsPath_of_any_files
        rw [fs1_files]
        exact hany
      have hr : runCmd Cmd.expressMiddleware n w none
          = { fs := (if !(w.fs.existsPath (w.cwd ++ ["middlewares"])) then
                       w.fs.mkdirRecursive (w.cwd ++ ["middlewares"]) else w.fs),
              msgs := [Msg.logBlue ("Creating middleware file: " ++ n),
                       Msg.logRed ("Middleware " ++ n ++ " already exists.")],
              exitCall := none } := by
        simp only [runCmd, expressMiddlewareAction, hex1, if_true]
      rw [hr]
      refine ⟨fs1_files w.fs _, ⟨"Middleware " ++ n ++ " already exists.", ?_, ?_⟩⟩
      · simp
      · exact contains_already ("Middleware " ++ n)
  · intro n cwd fs
    have hr1 : reactComponentAction cwd n fs none
        = { fs := (if !(fs.existsPath (cwd ++ ["src", "components"])) then
                     fs.mkdirRecursive (cwd ++ ["src", "components"]) else fs).writeFile
                   (cwd ++ ["src", "components", n ++ ".jsx"])
                   (jsTrim (componentTemplate n)),
            msgs := [Msg.logBlue ("Creating React component: " ++ n),
                     Msg.logGreen ("Component " ++ n ++ " created successfully!")],
            exitCall := none } := by
      simp only [reactComponentAction]
    have hdir : ((if !(fs.existsPath (cwd ++ ["src", "components"])) then
        fs.mkdirRecursive (cwd ++ ["src", "components"]) else fs).writeFile
        (cwd ++ ["src", "components", n ++ ".jsx"])
        (jsTrim (componentTemplate n))).existsPath (cwd ++ ["src", "components"]) = true := by
      rw [existsPath_writeFile, fs1_existsPath_dir fs _ (by simp)]
      rfl
    have hr2gen : ∀ g : FS, g.existsPath (cwd ++ ["src", "components"]) = true →
        reactComponentAction cwd n g none
          = { fs := g.writeFile (cwd ++ ["src", "components", n ++ ".jsx"])
                     (jsTrim (componentTemplate n)),
              msgs := [Msg.logBlue ("Creating React component: " ++ n),
                       Msg.logGreen ("Component " ++ n ++ " created successfully!")],
              exitCall := none } := by
      intro g hg
      simp only [reactComponentAction, hg, Bool.not_true, Bool.false_eq_true, if_false]
    rw [hr1]
    rw [hr2gen _ hdir]
    rw [writeFile_writeFile_self]

/-- Witness for C1 (amended): `express-model User` on a filesystem that
already holds `models/User.js` leaves the file list unchanged and logs a
message containing "already exists". -/
theorem claim_c1_witness :
    (runCmd Cmd.expressModel "User"
        { cwd := [], fs := ⟨[(["models", "User.js"], "x")], []⟩ } none).fs.files
      = (⟨[(["models", "User.js"], "x")], []⟩ : FS).files
    ∧ ∃ s, Msg.logRed s ∈ (runCmd Cmd.expressModel "User"
        { cwd := [], fs := ⟨[(["models", "User.js"], "x")], []⟩ } none).msgs
        ∧ strContainsB s "already exists" = true :=
  claim_c1_amended_existence_check.1 Cmd.expressModel "User"
    { cwd := [], fs := ⟨[(["models", "User.js"], "x")], []⟩ }
    ([] ++ ["models", "User" ++ ".js"]) (Or.inl rfl) rfl (by decide)

/-! ## The tree-copy commands -/

theorem filesUnder_cond_true (dest p : JPath) (c : String) (hp : p ≠ []) :
    (if dest.isPrefixOf (dest ++ p) && decide (dest.length < (dest ++ p).length) then
      some ((dest ++ p).drop dest.length, c)
    else none) = some (p, c) := by
  have h1 : dest.isPrefixOf (dest ++ p) = true := by
    rw [ List.isPrefixOf_iff_prefix]
    exact List.prefix_append dest p
  have h2 : dest.length < (dest ++ p).length := by
    rw [List.length_append]
    have := List.length_pos.mpr hp
    omega
  rw [h1]
  rw [decide_eq_true h2]
  show some (List.drop (List.length dest) (dest ++ p), c) = some (p, c)
  rw [List.drop_left]

theorem copyTpl_filesUnder_aux (t : Tpl) (dest : JPath) :
    ∀ fs : FS,
    (∀ e ∈ t, e.1 ≠ []) →
    (t.map Prod.fst).Nodup →
    (∀ e ∈ t, fs.files.any (fun f => f.1 == dest ++ e.1) = false) →
    (t.foldl (fun f e => (f.mkdirRecursive (dest ++ e.1.dropLast)).writeFile
        (dest ++ e.1) e.2) fs).filesUnder dest
      = fs.filesUnder dest ++ t := by
  induction t with
  | nil => intro fs _ _ _; simp
  | cons e t' ih =>
    intro fs ht0 hnd habs
    rw [List.foldl_cons]
    have hmk : ((fs.mkdirRecursive (dest ++ e.1.dropLast)).files) = fs.files :=
      mkdir_files fs _
    have hany : (fs.mkdirRecursive (dest ++ e.1.dropLast)).files.any
        (fun f => f.1 == dest ++ e.1) = false := by
      rw [hmk]
      exact habs e (List.mem_cons_self e t')
    have hw : ((fs.mkdirRecursive (dest ++ e.1.dropLast)).writeFile
        (dest ++ e.1) e.2).files = fs.files ++ [(dest ++ e.1, e.2)] := by
      rw [writeFile_append _ _ _ hany, hmk]
    have hnd' : (t'.map Prod.fst).Nodup := by
      rw [List.map_cons] at hnd
      exact (List.nodup_cons.mp hnd).2
    have hne : e.1 ∉ t'.map Prod.fst := by
      rw [List.map_cons] at hnd
      exact (List.nodup_cons.mp hnd).1
    have habs' : ∀ e' ∈ t', ((fs.mkdirRecursive (dest ++ e.1.dropLast)).writeFile
        (dest ++ e.1) e.2).files.any (fun f => f.1 == dest ++ e'.1) = false := by
      intro e' he'
      rw [hw, List.any_append]
      have hx : fs.files.any (fun f => f.1 == dest ++ e'.1) = false :=
        habs e' (List.mem_cons_of_mem e he')
      rw [hx]
      have hy : ((dest ++ e.1 : JPath) == dest ++ e'.1) = false := by
        rw [beq_eq_false_iff_ne]
        intro hcontra
        have : e.1 = e'.1 := List.append_cancel_left hcontra
        exact hne (this ▸ List.mem_map_of_mem Prod.fst he')
      simp [hy]
    rw [ih _ (fun x hx => ht0 x (List.mem_cons_of_mem e hx)) hnd' habs']
    have hfu : ((fs.mkdirRecursive (dest ++ e.1.dropLast)).writeFile
        (dest ++ e.1) e.2).filesUnder dest = fs.filesUnder dest ++ [e] := by
      unfold FS.filesUnder
      rw [hw, List.filterMap_append]
      have hsingle : ([(dest ++ e.1, e.2)] : List (JPath × String)).filterMap
          (fun e => if dest.isPrefixOf e.1 && decide (dest.length < e.1.length) then
            some (e.1.drop dest.length, e.2) else none) = [(e.1, e.2)] := by
        show List.filterMap _ [(dest ++ e.1, e.2)] = [(e.1, e.2)]
        rw [List.filterMap_cons]
        rw [filesUnder_cond_true dest e.1 e.2 (ht0 e (List.mem_cons_self e t'))]
        rfl
      rw [hsingle]
    rw [hfu, List.append_assoc]
    rfl

/-- C4: for the two tree-copy commands (`express`, `react`), when the
bundled template is present and the destination holds no files, the
files below the destination directory after the run are exactly the
template files, contents copied verbatim. -/
theorem claim_c4_copy_exact (c : Cmd) (name : String) (w : World) (t : Tpl)
    (hc : c = Cmd.express ∨ c = Cmd.react)
    (hsome : cmdTemplate c w = some t)
    (ht0 : ∀ e ∈ t, e.1 ≠ [])
    (hnd : (t.map Prod.fst).Nodup)
    (hpre : ∀ e ∈ w.fs.files, (w.cwd ++ [name]).isPrefixOf e.1 = false) :
    (runCmd c name w none).fs.filesUnder (w.cwd ++ [name]) = t := by
  have main : ∀ fs : FS, (∀ e ∈ fs.files, (w.cwd ++ [name]).isPrefixOf e.1 = false) →
      (copyTpl fs (w.cwd ++ [name]) t).filesUnder (w.cwd ++ [name]) = t := by
    intro fs hfs
    unfold copyTpl
    have habs : ∀ e ∈ t, (fs.mkdirRecursive (w.cwd ++ [name])).files.any
        (fun f => f.1 == (w.cwd ++ [name]) ++ e.1) = false := by
      intro e _
      rw [mkdir_files]
      cases ha : fs.files.any (fun f => f.1 == (w.cwd ++ [name]) ++ e.1) with
      | false => rfl
      | true =>
        obtain ⟨f, hf, hbeq⟩ := List.any_eq_true.mp ha
        have : f.1 = (w.cwd ++ [name]) ++ e.1 := eq_of_beq hbeq
        have hp : (w.cwd ++ [name]).isPrefixOf f.1 = true := by
          rw [this, List.isPrefixOf_iff_prefix]
          exact List.prefix_append _ _
        rw [hfs f hf] at hp
        cases hp
    rw [copyTpl_filesUnder_aux t (w.cwd ++ [name]) _ ht0 hnd habs]
    have hempty : (fs.mkdirRecursive (w.cwd ++ [name])).filesUnder (w.cwd ++ [name]) = [] := by
      unfold FS.filesUnder
      rw [mkdir_files]
      rw [List.filterMap_eq_nil_iff]
      intro e he
      rw [hfs e he]
      rfl
    rw [hempty]
    rfl
  rcases hc with rfl | rfl
  · simp only [cmdTemplate] at hsome
    simp only [runCmd, expressAction, hsome]
    exact main w.fs hpre
  · simp only [cmdTemplate] at hsome
    simp only [runCmd, reactAction, hsome]
    exact main w.fs hpre

/-- Witness for C4: `express myapp` on the empty filesystem, with the
bundled Express template, produces exactly that template below
`myapp`. -/
theorem claim_c4_witness :
    (runCmd Cmd.express "myapp" { cwd := [], fs := ⟨[], []⟩ } none).fs.filesUnder
        ([] ++ ["myapp"]) = [(["index.js"], expressTemplateIndexJs)] :=
  claim_c4_copy_exact Cmd.express "myapp" { cwd := [], fs := ⟨[], []⟩ }
    [(["index.js"], expressTemplateIndexJs)] (Or.inl rfl) rfl
    (by decide) (by decide) (by decide)

/-- C6: for both project-generation commands (`express` and `react`), a
failed copy is caught and logged, not thrown (the action returns an
ordinary result).  When the bundled template directory is missing,
`copySync` throws before creating anything, so the filesystem — in
particular the destination directory — is exactly as before; when the
copy throws mid-way with partial state `f`, the catch handler keeps `f`
as-is (no rollback). -/
theorem claim_c6_copy_failure_logged (cwd : JPath) (n : String) (fs f : FS)
    (tpl : Option Tpl) (e : String) :
    ((expressAction cwd n none fs none).fs = fs
     ∧ Msg.errorRed "Error copying template files:" "ENOENT"
         ∈ (expressAction cwd n none fs none).msgs
     ∧ (expressAction cwd n none fs none).exitCall = none)
    ∧ ((expressAction cwd n tpl fs (some (f, e))).fs = f
     ∧ Msg.errorRed "Error copying template files:" e
         ∈ (expressAction cwd n tpl fs (some (f, e))).msgs
     ∧ (expressAction cwd n tpl fs (some (f, e))).exitCall = none)
    ∧ ((reactAction cwd n none fs none).fs = fs
     ∧ Msg.errorRed "Error copying template files:" "ENOENT"
         ∈ (reactAction cwd n none fs none).msgs
     ∧ (reactAction cwd n none fs none).exitCall = none)
    ∧ ((reactAction cwd n tpl fs (some (f, e))).fs = f
     ∧ Msg.errorRed "Error copying template files:" e
         ∈ (reactAction cwd n tpl fs (some (f, e))).msgs
     ∧ (reactAction cwd n tpl fs (some (f, e))).exitCall = none) := by
  refine ⟨⟨rfl, ?_, rfl⟩, ⟨rfl, ?_, rfl⟩, ⟨rfl, ?_, rfl⟩, ⟨rfl, ?_, rfl⟩⟩
  · simp [expressAction]
  · simp [expressAction]
  · simp [reactAction]
  · simp [reactAction]

/-- C7: no command ever calls `process.exit` (so the process exits 0),
and an exception thrown inside the `try` block of any action is caught and
logged via `console.error` with the underlying error. -/
theorem claim_c7_no_failing_exit (c : Cmd) (n : String) (w : World)
    (inj : Option (FS × String)) :
    (runCmd c n w inj).exitCall = none
    ∧ (∀ f e, inj = some (f, e) →
        ∃ lbl, Msg.errorRed lbl e ∈ (runCmd c n w inj).msgs) := by
  refine ⟨?_, ?_⟩
  · cases c <;> rcases inj with _ | ⟨f, e⟩ <;>
      simp only [runCmd, expressAction, reactAction, reactComponentAction, expressModelAction,
        expressControllerAction, expressRouteAction, expressMiddlewareAction] <;>
      (try split) <;> (try split) <;> rfl
  · intro f e hinj
    subst hinj
    cases c with
    | express => exact ⟨"Error copying template files:", by simp [runCmd, expressAction]⟩
    | react => exact ⟨"Error copying template files:", by simp [runCmd, reactAction]⟩
    | reactComponent =>
      exact ⟨"Error creating component:", by simp [runCmd, reactComponentAction]⟩
    | expressModel => exact ⟨"Error creating model:", by simp [runCmd, expressModelAction]⟩
    | expressController =>
      exact ⟨"Error creating controller:", by simp [runCmd, expressControllerAction]⟩
    | expressRoute => exact ⟨"Error creating route:", by simp [runCmd, expressRouteAction]⟩
    | expressMiddleware =>
      exact ⟨"Error creating middleware file:", by simp [runCmd, expressMiddlewareAction]⟩

/-- Witness for C7: an injected EACCES failure of `express` is logged
and the exit call is still absent. -/
theorem claim_c7_witness :
    (runCmd Cmd.express "x" { cwd := [], fs := ⟨[], []⟩ }
        (some (⟨[], []⟩, "EACCES"))).exitCall = none
    ∧ ∃ lbl, Msg.errorRed lbl "EACCES"
        ∈ (runCmd Cmd.express "x" { cwd := [], fs := ⟨[], []⟩ }
            (some (⟨[], []⟩, "EACCES"))).msgs :=
  ⟨(claim_c7_no_failing_exit Cmd.express "x" { cwd := [], fs := ⟨[], []⟩ }
      (some (⟨[], []⟩, "EACCES"))).1,
   (claim_c7_no_failing_exit Cmd.express "x" { cwd := [], fs := ⟨[], []⟩ }
      (some (⟨[], []⟩, "EACCES"))).2 ⟨[], []⟩ "EACCES" rfl⟩

/-- C8: `askUserConfirmation` is defined at module level but referenced
by no command action and by no top-level statement: no command ever
prompts for confirmation. -/
theorem claim_c8_askUserConfirmation_dead (c : Cmd) :
    "askUserConfirmation" ∈ topLevelConstNames
    ∧ "askUserConfirmation" ∉ actionReferencedGlobals c
    ∧ "askUserConfirmation" ∉ topLevelStatementRefs := by
  refine ⟨by decide, ?_, by decide⟩
  cases c <;> decide

/-- C10: the body of `askUserConfirmation` references `readline`, which
no import, top-level constant or Node global defines, so any call throws
`ReferenceError: readline is not defined` at its first statement. -/
theorem claim_c10_askUserConfirmation_unusable :
    callAskUserConfirmation = Except.error "ReferenceError: readline is not defined"
    ∧ "readline" ∈ askUserConfirmationBodyRefs
    ∧ "readline" ∉ moduleScopeNames :=
  ⟨rfl, by decide, by decide⟩
